import Mathlib

/-!
# Verification of the DALL·E mini inference pipeline notebook

Shallow embedding of `src/tools/inference/inference_pipeline.ipynb`
(the only source file of the repository).  The notebook is orchestration
glue around three external pretrained models; we embed the notebook's own
control logic faithfully:

* the replicated sampling loop (cell-23):
  `for i in trange(max(n_predictions // jax.device_count(), 1)): ...`
  with one device-parallel generate + decode per round and
  `images.append(img)` for every decoded image of the round;
* the BOS strip (cell-23): `encoded_images.sequences[..., 1:]`;
* pixel post-processing (cell-23):
  `decoded_images.clip(0.0, 1.0).reshape((-1, 256, 256, 3))` followed by
  `np.asarray(decoded_img * 255, dtype=np.uint8)`;
* key handling (cell-12/23): `key, subkey = jax.random.split(key)` and
  `shard_prng_key(subkey)` — the splitting function itself lives in the
  external `jax` library, so it is modelled from the spec as a key-tree
  splitting function producing pairwise-disjoint derived keys;
* the CLIP scoring cell (cell-26): `logits = p_clip(shard(clip_inputs), clip.params)`
  after `clip_params = replicate(clip_params)`;
* the ranking cell (cell-28): `for idx in logits.argsort()[::-1]: ...`,
  with `argsort` modelled as the deterministic stable ascending argsort.

Machine floats (model outputs) are modelled as rationals: the clip /
scale / truncate post-processing is exact on ℚ.
-/

namespace DalleMini

/-! ## Replicated sampling loop (notebook cell-23) -/

/-- Loop bound of cell-23: `trange(max(n_predictions // jax.device_count(), 1))`.
Python `//` is floor division, which is `Nat.div`. -/
def rounds (n d : ℕ) : ℕ := max (n / d) 1

/-- A decoded image: dense 256×256×3 pixel grid (8-bit channel values are
modelled as integers, see `decodeImage`). -/
structure DecodedImage where
  pixel : Fin 256 → Fin 256 → Fin 3 → ℤ

/-- The images produced by one round `i` of the loop: the device-parallel
decode returns one image per device (per-device batch is 1 for the single
prompt), flattened by `reshape((-1, 256, 256, 3))` in device order.
`gen i j` abstracts the image the external models produce on device `j`
in round `i`. -/
def roundImages (gen : ℕ → ℕ → DecodedImage) (d i : ℕ) : List DecodedImage :=
  (List.range d).map (gen i)

/-- The accumulation loop of cell-23: `images = []` then each round appends
every decoded image of the round, in order. -/
def sampleLoop (gen : ℕ → ℕ → DecodedImage) (d : ℕ) (r : ℕ) : List DecodedImage :=
  (List.range r).foldl (fun images i => images ++ roundImages gen d i) []

/-- The full sampling cell for `n` requested predictions on `d` devices. -/
def runPipeline (gen : ℕ → ℕ → DecodedImage) (n d : ℕ) : List DecodedImage :=
  sampleLoop gen d (rounds n d)

/-- A concrete generator used to evaluate the pipeline at concrete inputs. -/
def testGen : ℕ → ℕ → DecodedImage := fun _ _ => ⟨fun _ _ _ => 0⟩

/-- Ceiling division, as the spec's `ceil(n/d)`. -/
def ceilDiv (n d : ℕ) : ℕ := (n + d - 1) / d

/-- Unfolding one round of the accumulation loop. -/
theorem sampleLoop_succ (gen : ℕ → ℕ → DecodedImage) (d r : ℕ) :
    sampleLoop gen d (r + 1) = sampleLoop gen d r ++ roundImages gen d r := by
  unfold sampleLoop
  rw [List.range_succ, List.foldl_append]
  rfl

/-- After `r` rounds the collection holds `r * d` images. -/
theorem sampleLoop_length (gen : ℕ → ℕ → DecodedImage) (d r : ℕ) :
    (sampleLoop gen d r).length = r * d := by
  induction r with
  | zero => simp [sampleLoop]
  | succ r ih =>
      rw [sampleLoop_succ, List.length_append, ih, roundImages,
        List.length_map, List.length_range, Nat.succ_mul]

/-- The accumulated collection is the round-major flattening of the rounds. -/
theorem sampleLoop_eq_flatten (gen : ℕ → ℕ → DecodedImage) (d r : ℕ) :
    sampleLoop gen d r = (List.range r).flatMap (roundImages gen d) := by
  induction r with
  | zero => rfl
  | succ r ih =>
      rw [sampleLoop_succ, ih, List.range_succ, List.flatMap_append]
      simp [List.flatMap]

/-! ## Strip of the leading control token (notebook cell-23) -/

/-- The generated token sequence of one sample: BOS marker followed by the
256 image-code tokens, so the correct unstripped length is 257. -/
def unstrippedLen : ℕ := 257

/-- `encoded_images.sequences[..., 1:]`: an unconditional slice dropping
index 0 along the token axis.  The code performs no shape check. -/
def stripBos (s : List ℕ) : List ℕ := s.drop 1

/-- Pixel post-processing of cell-23.
`clip(0.0, 1.0)` on one value. -/
def clipUnit (x : ℚ) : ℚ := max 0 (min 1 x)

/-- `np.asarray(v * 255, dtype=np.uint8)` on one clipped value: scale by 255
and truncate toward zero (equal to the floor on the non-negative inputs the
pipeline produces). -/
def quantize8 (x : ℚ) : ℤ := ⌊x * 255⌋

/-- Whole per-pixel post-processing: clip then scale-and-truncate. -/
def pixelValue (x : ℚ) : ℤ := quantize8 (clipUnit x)

/-- Decoding one raw decoder output grid into a `DecodedImage`: the
`reshape((-1, 256, 256, 3))` fixes the 256×256×3 shape (encoded here in the
index types) and each channel value is post-processed by `pixelValue`. -/
def decodeImage (raw : Fin 256 → Fin 256 → Fin 3 → ℚ) : DecodedImage :=
  ⟨fun r c ch => pixelValue (raw r c ch)⟩

end DalleMini

namespace DalleMini

/-! ## Claim C1: round count and total image count -/

/-- C1 counterexample: for `n = 5` requested predictions on `d = 4` devices
the code runs `max(5 // 4, 1) = 1` round and produces 4 images, while the
claimed `ceil(5/4) * 4 = 8`.  The claim as stated is false. -/
theorem c1_counterexample :
    (runPipeline testGen 5 4).length = 4 ∧ ceilDiv 5 4 * 4 = 8 ∧
      (runPipeline testGen 5 4).length ≠ ceilDiv 5 4 * 4 := by
  refine ⟨?_, by decide, ?_⟩ <;>
    simp [runPipeline, sampleLoop_length, rounds, ceilDiv]

/-- C1 (amended): for every `n > 0` and `d > 0` the sampling loop runs
`max(n / d, 1)` rounds (floor division, per
`trange(max(n_predictions // jax.device_count(), 1))`) and the total number
of DecodedImages produced across all rounds equals `max(n / d, 1) * d`. -/
theorem c1_total_images (gen : ℕ → ℕ → DecodedImage) (n d : ℕ)
    (_hn : 0 < n) (_hd : 0 < d) :
    rounds n d = max (n / d) 1 ∧
      (runPipeline gen n d).length = max (n / d) 1 * d := by
  exact ⟨rfl, by rw [runPipeline, sampleLoop_length, rounds]⟩

/-- Witness for C1 (amended) at `n = 5`, `d = 4`. -/
theorem c1_total_images_witness :
    rounds 5 4 = max (5 / 4) 1 ∧
      (runPipeline testGen 5 4).length = max (5 / 4) 1 * 4 :=
  c1_total_images testGen 5 4 (by decide) (by decide)

/-! ## Claim C6: boundary case n = 1, d = 4 -/

/-- C6: with `n_predictions = 1` and `d = 4` devices the loop bound
`max(1 // 4, 1)` is 1 round, and the run produces exactly 4 DecodedImages. -/
theorem c6_boundary_one_prediction :
    rounds 1 4 = 1 ∧ (runPipeline testGen 1 4).length = 4 := by
  constructor
  · rfl
  · rw [runPipeline, sampleLoop_length]; rfl

/-! ## Claim C9: per-round accumulation invariant -/

/-- C9: every completed round appends exactly `d` images to the accumulated
collection and leaves the previously accumulated images unchanged, so after
`r` completed rounds the collection holds `r * d` images in production order
(round-major: the flattening of the per-round device-order batches). -/
theorem c9_accumulation_invariant (gen : ℕ → ℕ → DecodedImage) (d r : ℕ) :
    sampleLoop gen d (r + 1) = sampleLoop gen d r ++ roundImages gen d r ∧
      (roundImages gen d r).length = d ∧
      (sampleLoop gen d (r + 1)).take (r * d) = sampleLoop gen d r ∧
      (sampleLoop gen d r).length = r * d ∧
      sampleLoop gen d r = (List.range r).flatMap (roundImages gen d) := by
  refine ⟨sampleLoop_succ gen d r, ?_, ?_, sampleLoop_length gen d r,
    sampleLoop_eq_flatten gen d r⟩
  · simp [roundImages]
  · rw [sampleLoop_succ, List.take_append_of_le_length
      (by rw [sampleLoop_length]), ← sampleLoop_length gen d r,
      List.take_length]

/-! ## Claim C3: stripping the leading control token -/

/-- C3 counterexample: applying the strip to an already-stripped (length-256)
sequence is not rejected with a length-mismatch error: `[..., 1:]` is an
unconditional slice, so it silently removes another token and returns a
length-255 sequence. -/
theorem c3_counterexample :
    stripBos (List.replicate 256 7) = List.replicate 255 7 ∧
      (stripBos (List.replicate 256 7)).length = 255 := by
  constructor
  · rfl
  · rw [stripBos, List.length_drop, List.length_replicate]

/-- C3 (amended): on a sequence of the correct unstripped length 257 the
strip removes exactly index 0 along the token axis (result has length 256
and entry `i` of the result is entry `i + 1` of the input); but the strip is
unconditional, so applied again to the already-stripped sequence it silently
removes another token, yielding length 255 instead of an error. -/
theorem c3_strip_bos (s : List ℕ) (hs : s.length = unstrippedLen) :
    (stripBos s).length = 256 ∧
      (∀ i : ℕ, (stripBos s).getD i 0 = s.getD (i + 1) 0) ∧
      (stripBos (stripBos s)).length = 255 := by
  refine ⟨?_, ?_, ?_⟩
  · simp [stripBos, hs, unstrippedLen]
  · intro i
    simp [stripBos, List.getD_eq_getElem?_getD, List.getElem?_drop,
      Nat.add_comm]
  · simp [stripBos, hs, unstrippedLen]

/-- Witness for C3 (amended) at the all-sevens sequence of length 257. -/
theorem c3_strip_bos_witness :
    (stripBos (List.replicate unstrippedLen 7)).length = 256 ∧
      (∀ i : ℕ, (stripBos (List.replicate unstrippedLen 7)).getD i 0 =
        (List.replicate unstrippedLen 7).getD (i + 1) 0) ∧
      (stripBos (stripBos (List.replicate unstrippedLen 7))).length = 255 :=
  c3_strip_bos (List.replicate unstrippedLen 7) (by simp)

/-! ## Claim C5: decoded pixel range and shape -/

/-- C5: every channel value of a decoded image — produced by clipping the
raw decoder output to [0,1], reshaping to 256×256×3 (the index types of
`DecodedImage.pixel`), scaling by 255 and truncating to 8 bits — is an
integer in [0, 255], for every raw decoder output and every pixel
coordinate. -/
theorem c5_pixel_range (raw : Fin 256 → Fin 256 → Fin 3 → ℚ)
    (r c : Fin 256) (ch : Fin 3) :
    0 ≤ (decodeImage raw).pixel r c ch ∧
      (decodeImage raw).pixel r c ch ≤ 255 := by
  have h0 : (0 : ℚ) ≤ clipUnit (raw r c ch) := le_max_left 0 _
  have h1 : clipUnit (raw r c ch) ≤ 1 :=
    max_le (by norm_num) (min_le_left 1 _)
  constructor
  · exact Int.floor_nonneg.mpr (by positivity)
  · calc (decodeImage raw).pixel r c ch
        ≤ ⌊(255 : ℚ)⌋ := by
          apply Int.floor_le_floor
          nlinarith
    _ = 255 := by norm_num

/-! ## Claim C4: per-device seed derivation (cells 12 and 23) -/

/-- A PRNG key, modelled as a path in the key-derivation tree. -/
abbrev PRNGKey : Type := List ℕ

/-- Modelled from the spec: `jax.random.split` lives in the external `jax`
library, not in this repository; the spec describes it as a splitting
function that derives fresh keys deterministically from the current seed and
advances the seed to a new, disjoint value.  Modelled as the key-tree split:
the advanced loop key extends the path by 0, the derived subkey extends it
by 1, so derived values are pairwise disjoint. -/
def splitKey (k : PRNGKey) : PRNGKey × PRNGKey := (k ++ [0], k ++ [1])

/-- Modelled from the spec: `shard_prng_key` (external `flax` helper) splits
one subkey into one device-local key per device. -/
def shardPrngKey (d : ℕ) (k : PRNGKey) : List PRNGKey :=
  (List.range d).map (fun j => k ++ [j])

/-- The loop key before round `i`: `key` is threaded through
`key, subkey = jax.random.split(key)` once per round. -/
def keyAfter (k0 : PRNGKey) : ℕ → PRNGKey
  | 0 => k0
  | i + 1 => (splitKey (keyAfter k0 i)).1

/-- The subkey consumed by round `i`. -/
def subkeyAt (k0 : PRNGKey) (i : ℕ) : PRNGKey := (splitKey (keyAfter k0 i)).2

/-- The per-device seed set of round `i`: `shard_prng_key(subkey)`. -/
def deviceSeeds (d : ℕ) (k0 : PRNGKey) (i : ℕ) : List PRNGKey :=
  shardPrngKey d (subkeyAt k0 i)

theorem keyAfter_length (k0 : PRNGKey) (i : ℕ) :
    (keyAfter k0 i).length = k0.length + i := by
  induction i with
  | zero => rfl
  | succ i ih =>
      simp only [keyAfter, splitKey, List.length_append, ih,
        List.length_singleton]
      omega

theorem deviceSeeds_length_mem (d : ℕ) (k0 : PRNGKey) (i : ℕ) (s : PRNGKey)
    (hs : s ∈ deviceSeeds d k0 i) : s.length = k0.length + i + 2 := by
  rcases List.mem_map.mp hs with ⟨j, _, rfl⟩
  simp [subkeyAt, splitKey, keyAfter_length]

/-- C4: within one run, the per-device seed set of a round is a
deterministic function of the initial RandomSeedState and the round index,
and seed derivation is injective across rounds: seeds handed to two
different rounds of the same run are never equal. -/
theorem c4_seed_derivation (k0 : PRNGKey) (d i j : ℕ) (hij : i ≠ j) :
    (∀ k0' : PRNGKey, k0' = k0 → deviceSeeds d k0' i = deviceSeeds d k0 i) ∧
      ∀ s ∈ deviceSeeds d k0 i, ∀ t ∈ deviceSeeds d k0 j, s ≠ t := by
  refine ⟨fun k0' h => by rw [h], fun s hs t ht hst => ?_⟩
  have h1 := deviceSeeds_length_mem d k0 i s hs
  have h2 := deviceSeeds_length_mem d k0 j t ht
  rw [hst, h2] at h1
  omega

/-- Witness for C4 at the root key, 2 devices, rounds 0 and 1. -/
theorem c4_seed_derivation_witness :
    (∀ k0' : PRNGKey, k0' = [] → deviceSeeds 2 k0' 0 = deviceSeeds 2 [] 0) ∧
      ∀ s ∈ deviceSeeds 2 [] 0, ∀ t ∈ deviceSeeds 2 [] 1, s ≠ t :=
  c4_seed_derivation [] 2 0 1 (by decide)

/-! ## Claim C2: CLIP ranking (notebook cell-28) -/

/-- The CLIP logit of image `i`, read from cell-26's flattened `logits`. -/
def scoreAt (scores : List ℚ) (i : ℕ) : ℚ := scores.getD i 0

/-- The ascending argsort order on image indices: by score, ties broken by
original index (the deterministic stable semantics of `np.argsort`). -/
def argsortLe (scores : List ℚ) (i j : ℕ) : Prop :=
  scoreAt scores i < scoreAt scores j ∨
    (scoreAt scores i = scoreAt scores j ∧ i ≤ j)

instance (scores : List ℚ) : DecidableRel (argsortLe scores) := fun i j => by
  unfold argsortLe; infer_instance

instance (scores : List ℚ) : IsTotal ℕ (argsortLe scores) := by
  constructor
  intro i j
  rcases lt_trichotomy (scoreAt scores i) (scoreAt scores j) with h | h | h
  · exact Or.inl (Or.inl h)
  · rcases Nat.le_total i j with hij | hij
    · exact Or.inl (Or.inr ⟨h, hij⟩)
    · exact Or.inr (Or.inr ⟨h.symm, hij⟩)
  · exact Or.inr (Or.inl h)

instance (scores : List ℚ) : IsTrans ℕ (argsortLe scores) := by
  constructor
  intro i j k hij hjk
  rcases hij with h1 | ⟨h1, h1'⟩ <;> rcases hjk with h2 | ⟨h2, h2'⟩
  · exact Or.inl (h1.trans h2)
  · exact Or.inl (lt_of_lt_of_eq h1 h2)
  · exact Or.inl (lt_of_eq_of_lt h1 h2)
  · exact Or.inr ⟨h1.trans h2, h1'.trans h2'⟩

/-- `logits.argsort()`: indices of all images sorted by ascending score. -/
def argsortAsc (scores : List ℚ) : List ℕ :=
  List.insertionSort (argsortLe scores) (List.range scores.length)

/-- cell-28's ranking order: `logits.argsort()[::-1]`. -/
def rankIndices (scores : List ℚ) : List ℕ := (argsortAsc scores).reverse

/-- C2 counterexample: with two images of equal score the ranking returns
`[1, 0]`: the image produced in the *later* round ranks first, refuting the
claimed earlier-first tie-break (and the order is not strictly
descending, the two scores being equal). -/
theorem c2_counterexample :
    scoreAt [(1 : ℚ), 1] 0 = scoreAt [(1 : ℚ), 1] 1 ∧
      rankIndices [(1 : ℚ), 1] = [1, 0] := by
  constructor
  · rfl
  · rfl

/-- C2 (amended): the ranking is a permutation of all image indices in
non-increasing (not strictly descending) score order, and for any two
images with equal score the image produced *later* ranks before the one
produced earlier (the reverse of an ascending stable sort flips the
tie-break). -/
theorem c2_ranking (scores : List ℚ) :
    (rankIndices scores).Perm (List.range scores.length) ∧
      (rankIndices scores).Pairwise (fun i j =>
        scoreAt scores j ≤ scoreAt scores i ∧
          (scoreAt scores i = scoreAt scores j → j < i)) := by
  have hperm : (rankIndices scores).Perm (List.range scores.length) :=
    (List.reverse_perm _).trans (List.perm_insertionSort _ _)
  refine ⟨hperm, ?_⟩
  have hsorted : (argsortAsc scores).Pairwise (argsortLe scores) :=
    List.sorted_insertionSort (argsortLe scores) (List.range scores.length)
  have hrev : (rankIndices scores).Pairwise (fun i j => argsortLe scores j i) :=
    (List.pairwise_reverse).mpr hsorted
  have hnd : (rankIndices scores).Nodup :=
    hperm.nodup_iff.mpr (List.nodup_range _)
  refine (hrev.and hnd).imp ?_
  rintro i j ⟨hle, hne⟩
  rcases hle with h | ⟨heq, hji⟩
  · exact ⟨le_of_lt h, fun heq => absurd (heq ▸ h) (lt_irrefl _)⟩
  · exact ⟨le_of_eq heq, fun _ => lt_of_le_of_ne hji (fun h => hne h.symm)⟩

/-! ## Claim C7: prompt encoding (notebook cells 15–18) -/

/-- The fixed-shape tokenized representation produced by the processor:
token id sequence plus attention mask. -/
structure TokenizedPrompt where
  inputIds : List ℕ
  attentionMask : List ℕ
  deriving DecidableEq

/-- Modelled from the spec: `DalleBartProcessor` is an external library
component; a model version is its vocabulary function, maximum token count
and pad token. -/
structure ProcessorVersion where
  vocab : String → List ℕ
  maxTokens : ℕ
  padToken : ℕ

/-- Modelled from the spec: `processor([prompt])` converts free text into a
fixed-shape TokenizedPrompt, truncating over-length input and padding
under-length input up to the model-specific maximum token count. -/
def processPrompt (v : ProcessorVersion) (text : String) : TokenizedPrompt :=
  let t := (v.vocab text).take v.maxTokens
  { inputIds := t ++ List.replicate (v.maxTokens - t.length) v.padToken
    attentionMask :=
      List.replicate t.length 1 ++ List.replicate (v.maxTokens - t.length) 0 }

/-- A concrete processor version used to evaluate the encoder. -/
def testProcessor : ProcessorVersion :=
  { vocab := fun s => s.data.map Char.toNat, maxTokens := 64, padToken := 1 }

/-- C7: the prompt encoder is deterministic — two encodings with the same
input text and the same model version yield identical TokenizedPrompt
records (token sequence and attention mask). -/
theorem c7_deterministic (v v' : ProcessorVersion) (t t' : String)
    (hv : v = v') (ht : t = t') : processPrompt v t = processPrompt v' t' := by
  rw [hv, ht]

/-- Witness for C7 at a concrete processor version and prompt. -/
theorem c7_deterministic_witness :
    processPrompt testProcessor "sunset over a lake in the mountains" =
      processPrompt testProcessor "sunset over a lake in the mountains" :=
  c7_deterministic testProcessor testProcessor _ _ rfl rfl

/-! ## Claim C8: scoring call parameter dataflow (notebook cell-26) -/

/-- `replicate` from `flax.jax_utils`: broadcast one copy of the parameters
per device. -/
def replicateParams {P : Type} (d : ℕ) (p : P) : List P := List.replicate d p

/-- The values in scope in the CLIP scoring cell. -/
structure ClipScoringEnv (P I : Type) where
  loadedParams : P
  attrParams : P
  clipInputs : I

/-- The scoring cell (cell-26): `clip_params = replicate(clip_params)`
followed by `logits = p_clip(shard(clip_inputs), clip.params)` — the
device-parallel call consumes the model object's own attribute
`clip.params`, not the replicated `clip_params`. -/
def scoreCell {P I R : Type} (d : ℕ) (pClip : I → P → R)
    (env : ClipScoringEnv P I) : R :=
  let _clip_params := replicateParams d env.loadedParams
  pClip env.clipInputs env.attrParams

/-- C8: the scoring call is invoked with the model attribute parameters,
and the replicated `clip_params` is never consumed — the cell's result is
independent of the loaded-and-replicated parameter value. -/
theorem c8_clip_params_unused {P I R : Type} (d : ℕ) (pClip : I → P → R)
    (inputs : I) (attr lp lp' : P) :
    scoreCell d pClip ⟨lp, attr, inputs⟩ = pClip inputs attr ∧
      scoreCell d pClip ⟨lp, attr, inputs⟩ =
        scoreCell d pClip ⟨lp', attr, inputs⟩ :=
  ⟨rfl, rfl⟩

/-! ## Claim C10: frame condition on the generator calls (cells 22–23) -/

/-- cell-22: `gen_top_k = None`. -/
def gen_top_k : Option ℤ := none

/-- cell-22: `gen_top_p = None`. -/
def gen_top_p : Option ℚ := none

/-- cell-22: `temperature = None`. -/
def gen_temperature : Option ℚ := none

/-- cell-22: `cond_scale = 3.0`. -/
def cond_scale : ℚ := 3

/-- The full argument tuple of one `p_generate` call. -/
structure PGenerateCall (TP PR : Type) where
  tokenizedPrompt : TP
  key : List PRNGKey
  params : PR
  topK : Option ℤ
  topP : Option ℚ
  temp : Option ℚ
  condScale : ℚ

/-- The `p_generate` call of round `i` in cell-23's loop:
`p_generate(tokenized_prompt, shard_prng_key(subkey), params, gen_top_k,
gen_top_p, temperature, cond_scale)` — every argument except the sharded
key is a loop-invariant name bound before the loop. -/
def generateCallAt {TP PR : Type} (tp : TP) (pr : PR) (d : ℕ) (k0 : PRNGKey)
    (i : ℕ) : PGenerateCall TP PR :=
  { tokenizedPrompt := tp
    key := deviceSeeds d k0 i
    params := pr
    topK := gen_top_k
    topP := gen_top_p
    temp := gen_temperature
    condScale := cond_scale }

theorem deviceSeeds_injective (d : ℕ) (hd : 0 < d) (k0 : PRNGKey) {i j : ℕ}
    (h : deviceSeeds d k0 i = deviceSeeds d k0 j) : i = j := by
  have hm : subkeyAt k0 i ++ [0] ∈ deviceSeeds d k0 i :=
    List.mem_map.mpr ⟨0, List.mem_range.mpr hd, rfl⟩
  have h1 := deviceSeeds_length_mem d k0 i _ hm
  rw [h] at hm
  have h2 := deviceSeeds_length_mem d k0 j _ hm
  omega

/-- C10: across any two rounds of one run, the tokenized prompt, the
replicated parameters and the sampling hyperparameters of the generator
call are identical — with top_k, top_p, temperature fixed at `none` and the
conditioning scale at 3 — while the random key is the one argument that
differs between distinct rounds. -/
theorem c10_frame_condition {TP PR : Type} (tp : TP) (pr : PR) (d : ℕ)
    (k0 : PRNGKey) (i j : ℕ) (hd : 0 < d) (hij : i ≠ j) :
    (generateCallAt tp pr d k0 i).tokenizedPrompt =
        (generateCallAt tp pr d k0 j).tokenizedPrompt ∧
      (generateCallAt tp pr d k0 i).params =
        (generateCallAt tp pr d k0 j).params ∧
      (generateCallAt tp pr d k0 i).topK = none ∧
      (generateCallAt tp pr d k0 i).topP = none ∧
      (generateCallAt tp pr d k0 i).temp = none ∧
      (generateCallAt tp pr d k0 i).condScale = 3 ∧
      (generateCallAt tp pr d k0 i).topK = (generateCallAt tp pr d k0 j).topK ∧
      (generateCallAt tp pr d k0 i).topP = (generateCallAt tp pr d k0 j).topP ∧
      (generateCallAt tp pr d k0 i).temp = (generateCallAt tp pr d k0 j).temp ∧
      (generateCallAt tp pr d k0 i).condScale =
        (generateCallAt tp pr d k0 j).condScale ∧
      (generateCallAt tp pr d k0 i).key ≠ (generateCallAt tp pr d k0 j).key := by
  refine ⟨rfl, rfl, rfl, rfl, rfl, rfl, rfl, rfl, rfl, rfl, fun h => ?_⟩
  exact hij (deviceSeeds_injective d hd k0 h)

/-- Witness for C10 at concrete prompt 0, parameters 0, one device, root
key, rounds 0 and 1. -/
theorem c10_frame_condition_witness :
    (generateCallAt (0 : ℕ) (0 : ℕ) 1 [] 0).tokenizedPrompt =
        (generateCallAt (0 : ℕ) (0 : ℕ) 1 [] 1).tokenizedPrompt ∧
      (generateCallAt (0 : ℕ) (0 : ℕ) 1 [] 0).params =
        (generateCallAt (0 : ℕ) (0 : ℕ) 1 [] 1).params ∧
      (generateCallAt (0 : ℕ) (0 : ℕ) 1 [] 0).topK = none ∧
      (generateCallAt (0 : ℕ) (0 : ℕ) 1 [] 0).topP = none ∧
      (generateCallAt (0 : ℕ) (0 : ℕ) 1 [] 0).temp = none ∧
      (generateCallAt (0 : ℕ) (0 : ℕ) 1 [] 0).condScale = 3 ∧
      (generateCallAt (0 : ℕ) (0 : ℕ) 1 [] 0).topK =
        (generateCallAt (0 : ℕ) (0 : ℕ) 1 [] 1).topK ∧
      (generateCallAt (0 : ℕ) (0 : ℕ) 1 [] 0).topP =
        (generateCallAt (0 : ℕ) (0 : ℕ) 1 [] 1).topP ∧
      (generateCallAt (0 : ℕ) (0 : ℕ) 1 [] 0).temp =
        (generateCallAt (0 : ℕ) (0 : ℕ) 1 [] 1).temp ∧
      (generateCallAt (0 : ℕ) (0 : ℕ) 1 [] 0).condScale =
        (generateCallAt (0 : ℕ) (0 : ℕ) 1 [] 1).condScale ∧
      (generateCallAt (0 : ℕ) (0 : ℕ) 1 [] 0).key ≠
        (generateCallAt (0 : ℕ) (0 : ℕ) 1 [] 1).key :=
  c10_frame_condition (0 : ℕ) (0 : ℕ) 1 [] 0 1 (by decide) (by decide)

end DalleMini
